import Mathlib

/-!
Verification of the VocalCommit staged publication pipeline.

The frontend (`frontend/src/components/VoiceInterface.tsx`) is embedded
directly from its TypeScript source.  The backend orchestrator
(`github_ops.py`, `main.py`) is not part of the available sources, so its
operations (workspace reset, checkpoint, approval/publish, rollback,
revert) are modelled from the specification's own description of them.
-/

set_option maxHeartbeats 1000000

namespace VocalCommit

/-! ## Workflow state machine (spec section 4.4) -/

/-- Workflow states, from the spec's data model. -/
inductive WState
  | initialized
  | changes_applied
  | validated
  | checkpointed
  | awaiting_decision
  | published
  | rolled_back_soft
  | rolled_back_hard
  | failed
deriving DecidableEq, Repr

/-- Events that drive the workflow state machine. -/
inductive WEvent
  | applier_signal
  | validate_pass
  | validate_fail
  | checkpoint_ok
  | auto_advance
  | approve
  | reject_soft
  | reject_hard
  | unrecoverable
deriving DecidableEq, Repr

/-- Terminal states of the workflow state machine. -/
def isTerminal : WState → Bool
  | .published => true
  | .rolled_back_soft => true
  | .rolled_back_hard => true
  | .failed => true
  | _ => false

/-- Modelled from the spec: the transition table of section 4.4 for the
missing backend `WorkflowRegistry`.  `none` means the event is not accepted
in that state. -/
def transition : WState → WEvent → Option WState
  | .initialized, .applier_signal => some .changes_applied
  | .changes_applied, .validate_pass => some .validated
  | .changes_applied, .validate_fail => some .failed
  | .validated, .checkpoint_ok => some .checkpointed
  | .checkpointed, .auto_advance => some .awaiting_decision
  | .awaiting_decision, .approve => some .published
  | .awaiting_decision, .reject_soft => some .rolled_back_soft
  | .awaiting_decision, .reject_hard => some .rolled_back_hard
  | s, .unrecoverable => if isTerminal s then none else some .failed
  | _, _ => none

/-- Errors raised by the approval gateway's decision operations. -/
inductive GatewayError
  | AlreadyResolved
  | InvalidState
deriving DecidableEq, Repr

/-- The three decision operations of the approval gateway. -/
def isDecision : WEvent → Bool
  | .approve => true
  | .reject_soft => true
  | .reject_hard => true
  | _ => false

/-- Modelled from the spec: the missing backend gateway's handling of a
decision call — a workflow already in a terminal state rejects further
decision calls with `AlreadyResolved`; otherwise the state-machine
transition applies. -/
def resolveDecision (s : WState) (e : WEvent) : Except GatewayError WState :=
  if isTerminal s then Except.error GatewayError.AlreadyResolved
  else
    match transition s e with
    | some t => Except.ok t
    | none => Except.error GatewayError.InvalidState

/-! ## WebSocket URL derivation (frontend `getWsUrl`)

JavaScript strings are modelled as lists of characters so that every
operation evaluates by structural recursion. -/

/-- Model of a JavaScript string. -/
abbrev JStr := List Char

/-- Embeds `API_BASE_URL.replace(/\/$/, '')`: remove one trailing slash. -/
def stripTrailingSlash (s : JStr) : JStr :=
  if s.getLast? = some '/' then s.dropLast else s

/-- Embeds `cleanBase.replace(/^https?/, wsProtocol)`: the regex prefers the
longer alternative, so a leading `https` is rewritten before `http`; with no
match the string is unchanged. -/
def replaceSchemeWith (s p : JStr) : JStr :=
  if ("https".data).isPrefixOf s then p ++ s.drop 5
  else if ("http".data).isPrefixOf s then p ++ s.drop 4
  else s

/-- Embeds the body of `getWsUrl` past the environment check. -/
def deriveWs (apiBase : JStr) : JStr :=
  let cleanBase := stripTrailingSlash apiBase
  let wsProtocol := if ("https".data).isPrefixOf cleanBase
    then "wss".data else "ws".data
  replaceSchemeWith cleanBase wsProtocol ++ "/ws".data

/-- Embeds `getWsUrl` from `VoiceInterface.tsx`.  The guard
`if (import.meta.env.VITE_WS_URL) return import.meta.env.VITE_WS_URL;` is a
JavaScript truthiness test: it falls through both when the variable is
absent and when it is the empty string. -/
def getWsUrl (wsEnvVar : Option JStr) (apiBase : JStr) : JStr :=
  match wsEnvVar with
  | some u => if u = [] then deriveWs apiBase else u
  | none => deriveWs apiBase

/-- Spec-side restatement of the claim's words for `getWsUrl`, amended for
the empty-string case: a set non-empty variable is returned unchanged,
otherwise the base has a single trailing slash removed, a leading `http`
scheme replaced by `ws` (`https` by `wss` exactly when the base starts with
`https`), and `/ws` appended. -/
def getWsUrlSpec (wsEnvVar : Option JStr) (apiBase : JStr) : JStr :=
  let base := if apiBase.getLast? = some '/' then apiBase.dropLast else apiBase
  let derived :=
    (if ("https".data).isPrefixOf base then "wss".data ++ base.drop 5
     else if ("http".data).isPrefixOf base then "ws".data ++ base.drop 4
     else base) ++ "/ws".data
  match wsEnvVar with
  | some u => if u = [] then derived else u
  | none => derived

/-! ## Approval gateway and publish records (spec sections 4.3 and 4.5) -/

/-- A record of a completed remote push, from the spec's data model. -/
structure PublishRecord where
  remote_ref : Nat
  pushed_at : Nat
  source_checkpoint_ref : Nat
deriving DecidableEq, Repr

/-- Resolution status of one workflow inside the approval gateway. -/
inductive GStatus
  | awaiting
  | publishing (r : PublishRecord)
  | donePublished (r : PublishRecord)
  | resolvedOther
deriving DecidableEq, Repr

/-- Gateway bookkeeping for one workflow: its resolution status and how many
pushes to the remote have been performed on its behalf. -/
structure Gateway where
  status : GStatus
  pushCount : Nat
deriving DecidableEq, Repr

/-- Modelled from the spec: the missing backend `approve` operation
(`/approve-github-push/{task_id}`).  On a workflow awaiting decision it
publishes — one push — and records the `PublishRecord`; on an
already-published or already-publishing workflow it returns the prior
result without pushing again; on an otherwise-resolved workflow it fails
with `AlreadyResolved`.  `fresh` is the record a new publish would
produce. -/
def approveOp (g : Gateway) (fresh : PublishRecord) :
    Gateway × Except GatewayError PublishRecord :=
  match g.status with
  | .awaiting =>
      (⟨GStatus.donePublished fresh, g.pushCount + 1⟩, Except.ok fresh)
  | .publishing r => (g, Except.ok r)
  | .donePublished r => (g, Except.ok r)
  | .resolvedOther => (g, Except.error GatewayError.AlreadyResolved)

/-! ## Revert coordinator (spec section 4.6) -/

/-- A remote commit: identifier, whether it carries the structured
system-authored marker, and the tree it leaves behind (a finite file map,
modelled as a function from paths to optional contents). -/
structure RCommit where
  cid : Nat
  systemAuthored : Bool
  tree : JStr → Option JStr

/-- Process-wide state seen by the revert coordinator: the remote history
(tip first) and the process-wide last-publish pointer. -/
structure RevertState where
  history : List RCommit
  lastPublish : Option PublishRecord

/-- Error type of the revert coordinator. -/
inductive RevertError
  | NotRevertable
deriving DecidableEq, Repr

/-- Tree of the commit below the tip: what the remote looked like before
the last published commit. -/
def parentTree : List RCommit → (JStr → Option JStr)
  | [] => fun _ => none
  | c :: _ => c.tree

/-- Modelled from the spec: the missing backend `revertLastPublish`
(`/drop-latest-commit`).  It requires a last-publish record, the remote tip
to equal that record's `remote_ref`, and the tip to carry the
system-authored marker; otherwise it fails with `NotRevertable` touching
nothing.  On success it pushes a new commit whose tree is the pre-publish
tree (the semantic inverse of the published change, not a history rewrite)
and clears the last-publish pointer. -/
def revertLastPublish (s : RevertState) (newCid now : Nat) :
    RevertState × Except RevertError PublishRecord :=
  match s.lastPublish with
  | none => (s, Except.error RevertError.NotRevertable)
  | some rec =>
    match s.history with
    | [] => (s, Except.error RevertError.NotRevertable)
    | tip :: rest =>
      if tip.cid = rec.remote_ref ∧ tip.systemAuthored = true then
        let rc : RCommit := ⟨newCid, true, parentTree rest⟩
        (⟨rc :: tip :: rest, none⟩,
         Except.ok ⟨newCid, now, rec.source_checkpoint_ref⟩)
      else (s, Except.error RevertError.NotRevertable)

/-! ## Local checkpoint rollback (spec section 4.3, README rollback flows) -/

/-- A local commit in the orchestrator's clone: the tree it records and its
message. -/
structure LocalCommit where
  tree : JStr → Option JStr
  msg : JStr

/-- The orchestrator's local clone: commit history (tip first), working-tree
contents, and the set of staged paths. -/
structure LocalRepo where
  history : List LocalCommit
  workspace : JStr → Option JStr
  staged : List JStr

/-- A workflow's local repository together with its workflow state. -/
structure RollbackCtx where
  repo : LocalRepo
  wstate : WState

/-- Tree recorded at the head of a local history (empty tree when the
history is empty). -/
def headTreeL : List LocalCommit → (JStr → Option JStr)
  | [] => fun _ => none
  | c :: _ => c.tree

/-- Modelled from the spec: the missing backend soft rollback
(`git reset --soft HEAD~1` in the README) — the commit pointer moves back
one step, the working tree is untouched so the modified files stay present,
nothing remains staged, and the workflow ends `rolled_back_soft`. -/
def rejectSoft (c : RollbackCtx) : RollbackCtx :=
  ⟨⟨c.repo.history.tail, c.repo.workspace, []⟩, WState.rolled_back_soft⟩

/-- Restore the contents of exactly `paths` from the snapshot `snap`,
leaving every other path of the working tree `ws` alone. -/
def restoreOnly (paths : List JStr) (snap ws : JStr → Option JStr) :
    JStr → Option JStr :=
  fun p => if p ∈ paths then snap p else ws p

/-- Modelled from the spec: the missing backend hard rollback (the README's
`git reset --soft HEAD~1` followed by `git checkout HEAD -- <files>`) — the
commit pointer moves back one step and then only the workflow's changed
paths are restored from the pre-checkpoint commit; the rest of the working
tree is untouched. -/
def rejectHard (changed : List JStr) (c : RollbackCtx) : RollbackCtx :=
  let rest := c.repo.history.tail
  ⟨⟨rest, restoreOnly changed (headTreeL rest) c.repo.workspace, []⟩,
   WState.rolled_back_hard⟩

/-! ## Publish coordinator (spec section 4.5) -/

/-- Observable actions of a publish attempt, in the order performed. -/
inductive PubAction
  | resetWs
  | applyPath (p : JStr)
  | stageAll
  | commitMsg (m : JStr)
  | pushRemote
deriving DecidableEq, Repr

/-- Error type of the publish coordinator. -/
inductive PublishError
  | WorkspaceFailed
  | NoChangesToPublish
  | PushRejected
deriving DecidableEq, Repr

/-- The structured system-authored marker embedded in commit messages. -/
def systemMarker : JStr := "[VocalCommit]".data

/-- Commit message derived from the checkpoint annotation: the
system-authored marker followed by the annotation. -/
def deriveMsg (annot : JStr) : JStr := systemMarker ++ (" ".data) ++ annot

/-- Inputs of one publish attempt: whether the workspace reset succeeds, the
checkpoint's recorded files for the workflow's changed paths (in order), the
checkpoint annotation, whether re-applying them produces a non-empty diff
against the fresh tip, whether the push is accepted, and the data of the
resulting record. -/
structure PubEnv where
  resetOk : Bool
  checkpointFiles : List (JStr × JStr)
  annot : JStr
  diffNonEmpty : Bool
  pushOk : Bool
  freshRef : Nat
  pushTime : Nat
  sourceRef : Nat

/-- Modelled from the spec: the missing backend publish step of section 4.5
— reset the workspace to the current remote tip, re-apply exactly the
changed paths from the checkpoint's recorded contents, stage, commit with a
message derived from the annotation, push; each failure stops the sequence
where it occurs. -/
def publish (e : PubEnv) : List PubAction × Except PublishError PublishRecord :=
  if e.resetOk = false then
    ([PubAction.resetWs], Except.error PublishError.WorkspaceFailed)
  else
    let applies := e.checkpointFiles.map (fun pc => PubAction.applyPath pc.1)
    if e.diffNonEmpty = false then
      (PubAction.resetWs :: applies ++ [PubAction.stageAll],
       Except.error PublishError.NoChangesToPublish)
    else
      let trace := PubAction.resetWs :: applies ++
        [PubAction.stageAll, PubAction.commitMsg (deriveMsg e.annot),
         PubAction.pushRemote]
      if e.pushOk = false then (trace, Except.error PublishError.PushRejected)
      else (trace, Except.ok ⟨e.freshRef, e.pushTime, e.sourceRef⟩)

/-! ## Workspace reset (spec section 4.1) -/

/-- The three removal strategies, in escalation order. -/
inductive Strategy
  | plainDelete
  | permissionFix
  | forcefulExternal
deriving DecidableEq, Repr

/-- Observable events of one `reset()` call. -/
inductive ResetEvent
  | attemptRemove (s : Strategy)
  | backoff (ms : Nat)
  | cloneRemote
deriving DecidableEq, Repr

/-- The documented escalation order of removal strategies. -/
def escalation : List Strategy :=
  [Strategy.plainDelete, Strategy.permissionFix, Strategy.forcefulExternal]

/-- The fixed backoff between removal attempts, in milliseconds. -/
def backoffMs : Nat := 1000

/-- Modelled from the spec: the missing backend directory removal — try
plain recursive delete, then permission relaxation, then a forceful
external removal, with a fixed backoff between attempts and at most three
attempts; `ok` says which strategies would succeed. -/
def removeDir (ok : Strategy → Bool) : List ResetEvent × Bool :=
  if ok Strategy.plainDelete then
    ([ResetEvent.attemptRemove Strategy.plainDelete], true)
  else if ok Strategy.permissionFix then
    ([ResetEvent.attemptRemove Strategy.plainDelete,
      ResetEvent.backoff backoffMs,
      ResetEvent.attemptRemove Strategy.permissionFix], true)
  else
    ([ResetEvent.attemptRemove Strategy.plainDelete,
      ResetEvent.backoff backoffMs,
      ResetEvent.attemptRemove Strategy.permissionFix,
      ResetEvent.backoff backoffMs,
      ResetEvent.attemptRemove Strategy.forcefulExternal],
     ok Strategy.forcefulExternal)

/-- Error type of `reset()`. -/
inductive WorkspaceError
  | RemovalFailed
  | CloneFailed
deriving DecidableEq, Repr

/-- Modelled from the spec: the missing backend `WorkspaceManager.reset()` —
removal with the escalating policy, then a single clone attempt whose
failure is surfaced immediately as a terminal error, never retried. -/
def resetWorkspace (ok : Strategy → Bool) (cloneOk : Bool) :
    List ResetEvent × Except WorkspaceError Unit :=
  let rem := removeDir ok
  if rem.2 = false then (rem.1, Except.error WorkspaceError.RemovalFailed)
  else if cloneOk then (rem.1 ++ [ResetEvent.cloneRemote], Except.ok ())
  else (rem.1 ++ [ResetEvent.cloneRemote],
        Except.error WorkspaceError.CloneFailed)

/-- Strategies attempted during a trace, in order. -/
def attemptsOf : List ResetEvent → List Strategy
  | [] => []
  | ResetEvent.attemptRemove s :: rest => s :: attemptsOf rest
  | _ :: rest => attemptsOf rest

/-- Number of backoff sleeps in a trace. -/
def backoffCount : List ResetEvent → Nat
  | [] => 0
  | ResetEvent.backoff _ :: rest => backoffCount rest + 1
  | _ :: rest => backoffCount rest

/-- Number of clone attempts in a trace. -/
def cloneCount : List ResetEvent → Nat
  | [] => 0
  | ResetEvent.cloneRemote :: rest => cloneCount rest + 1
  | _ :: rest => cloneCount rest

/-! ## Checkpoint coordinator (spec section 4.2) -/

/-- Lookup in an association list of paths to contents. -/
def lookupA : List (JStr × JStr) → JStr → Option JStr
  | [], _ => none
  | kv :: rest, p => if kv.1 = p then some kv.2 else lookupA rest p

/-- Paths whose content differs between the working tree and the clone
point: staging's view of the net changes. -/
def diffPaths (ws headSnap : List (JStr × JStr)) : List JStr :=
  (ws.map Prod.fst).filter
    (fun p => decide (lookupA headSnap p ≠ lookupA ws p)) ++
  (headSnap.map Prod.fst).filter (fun p => decide (lookupA ws p = none))

/-- An immutable local checkpoint, from the spec's data model. -/
structure Checkpoint where
  checkpoint_ref : Nat
  created_at : Nat
  annot : JStr
deriving DecidableEq, Repr

/-- Error type of the checkpoint coordinator. -/
inductive CheckpointError
  | NothingToCheckpoint
deriving DecidableEq, Repr

/-- Modelled from the spec: the missing backend
`checkpoint(changed_paths, annotation)` — staging the working tree against
the clone point and failing with `NothingToCheckpoint` when it detects zero
net changes, committing otherwise. -/
def checkpointOp (ws headSnap : List (JStr × JStr)) (annot : JStr)
    (newRef now : Nat) : Except CheckpointError Checkpoint :=
  if diffPaths ws headSnap = [] then
    Except.error CheckpointError.NothingToCheckpoint
  else Except.ok ⟨newRef, now, annot⟩

/-! ## Frontend in-flight decision guard (`commitActions` in
`VoiceInterface.tsx`)

`approveCommit` and `rollbackCommit` share the guard
`if (commitActions[taskId]) return;`, then set the flag, issue one HTTP
request, and clear the flag in a `finally` block.  JavaScript runs each
synchronous segment to completion, so the guard-and-set prefix is one
atomic step; the await of the response is a second step whose completion
(normal or thrown) runs the `finally`.  Invocations of either function for
one task id are counted by phase. -/

/-- How an in-flight request ends: the `try` body finishing normally or a
thrown error caught on the way out — the `finally` runs either way. -/
inductive Outcome
  | succeeded
  | threw
deriving DecidableEq, Repr

/-- State of the decision-call system for a single task id: the
`commitActions` flag, the number of invocations not yet past the guard,
in flight (request issued, flag held), and returned, and the total number
of HTTP requests issued. -/
structure UiState where
  flag : Bool
  ready : Nat
  inFlight : Nat
  finished : Nat
  requests : Nat
deriving DecidableEq, Repr

/-- One atomic step of the decision-call system, embedded from
`approveCommit` / `rollbackCommit`:  `earlyReturn` is the guard hitting a
set flag and returning without a request; `enter` is the guard passing,
setting the flag and issuing the single `fetch`; `complete` is the response
(of either outcome) running the `finally`, which deletes the flag. -/
inductive UStep : UiState → UiState → Prop
  | earlyReturn (s : UiState) (h : 0 < s.ready) (hf : s.flag = true) :
      UStep s ⟨true, s.ready - 1, s.inFlight, s.finished + 1, s.requests⟩
  | enter (s : UiState) (h : 0 < s.ready) (hf : s.flag = false) :
      UStep s ⟨true, s.ready - 1, s.inFlight + 1, s.finished, s.requests + 1⟩
  | complete (s : UiState) (o : Outcome) (h : 0 < s.inFlight) :
      UStep s ⟨false, s.ready, s.inFlight - 1, s.finished + 1, s.requests⟩

/-- Initial state: flag clear, `n` potential invocations, nothing issued. -/
def initUi (n : Nat) : UiState := ⟨false, n, 0, 0, 0⟩

/-- States reachable from the initial state by decision-call steps. -/
inductive ReachUi (n : Nat) : UiState → Prop
  | refl : ReachUi n (initUi n)
  | tail {s t : UiState} : ReachUi n s → UStep s t → ReachUi n t

end VocalCommit

namespace VocalCommit

/-- Helper invariant: in every reachable state the `commitActions` flag is
set exactly when one invocation is in flight. -/
theorem uiFlagInvariant {n : Nat} {s : UiState} (h : ReachUi n s) :
    s.inFlight = (if s.flag then 1 else 0) := by
  induction h with
  | refl => simp [initUi]
  | tail _ hs ih =>
    cases hs with
    | earlyReturn h hf => simp_all
    | enter h hf => simp_all
    | complete o h =>
      simp only [Bool.false_eq_true, if_false]
      split at ih <;> omega

/-- C3: the workflow states `published`, `rolled_back_soft`,
`rolled_back_hard` and `failed` are absorbing — no transition leaves a
terminal state — and any decision operation invoked on a workflow in a
terminal state fails with `AlreadyResolved` rather than succeeding. -/
theorem c3_terminal_states_absorbing :
    (∀ s e, isTerminal s = true → transition s e = none) ∧
    (∀ s e, isTerminal s = true → isDecision e = true →
      resolveDecision s e = Except.error GatewayError.AlreadyResolved) := by
  constructor
  · intro s e hs
    cases s <;> cases e <;> simp_all [transition, isTerminal]
  · intro s e hs _
    simp [resolveDecision, hs]

/-- C3 witness: the terminal state `published` accepts no transition and an
`approve` decision on it fails with `AlreadyResolved`. -/
theorem c3_terminal_states_absorbing_witness :
    transition WState.published WEvent.approve = none ∧
    resolveDecision WState.published WEvent.approve =
      Except.error GatewayError.AlreadyResolved :=
  ⟨c3_terminal_states_absorbing.1 WState.published WEvent.approve (by decide),
   c3_terminal_states_absorbing.2 WState.published WEvent.approve (by decide)
     (by decide)⟩

/-- C10 counterexample: with `VITE_WS_URL` set to the empty string the
function does not return the variable unchanged — the truthiness guard falls
through and the URL is derived from the API base instead. -/
theorem c10_getWsUrl_counterexample :
    getWsUrl (some []) ("http://localhost:8000".data) =
      ("ws://localhost:8000/ws".data) ∧
    getWsUrl (some []) ("http://localhost:8000".data) ≠ [] := by
  constructor
  · decide
  · decide

/-- C10 (amended): when `VITE_WS_URL` is unset or set to the empty string,
`getWsUrl` returns the API base with a single trailing slash removed, the
leading `http` scheme replaced by `ws` (`https` by `wss` exactly when the
base starts with `https`) and `/ws` appended; when `VITE_WS_URL` is set to a
non-empty string it is returned unchanged. -/
theorem c10_getWsUrl_correct :
    ∀ wsEnvVar apiBase, getWsUrl wsEnvVar apiBase = getWsUrlSpec wsEnvVar apiBase := by
  intro wsEnvVar apiBase
  have hbody : deriveWs apiBase =
      (let base := if apiBase.getLast? = some '/' then apiBase.dropLast else apiBase
       (if ("https".data).isPrefixOf base then "wss".data ++ base.drop 5
        else if ("http".data).isPrefixOf base then "ws".data ++ base.drop 4
        else base) ++ "/ws".data) := by
    simp only [deriveWs, stripTrailingSlash, replaceSchemeWith]
    by_cases h1 : ("https".data).isPrefixOf
        (if apiBase.getLast? = some '/' then apiBase.dropLast else apiBase) <;>
      simp [h1]
  cases wsEnvVar with
  | none => simpa [getWsUrl, getWsUrlSpec] using hbody
  | some u =>
    by_cases hu : u = ([] : JStr) <;>
      simp [getWsUrl, getWsUrlSpec, hu, hbody]

/-- C1: approval is idempotent — a first `approve` on a workflow awaiting
decision publishes with exactly one push and returns its `PublishRecord`,
and a second `approve` on the now-published workflow (or on one still
publishing) returns that same record with no further push and no state
change. -/
theorem c1_approve_idempotent :
    (∀ g : Gateway, ∀ fresh fresh2 : PublishRecord,
      g.status = GStatus.awaiting →
      (approveOp g fresh).2 = Except.ok fresh ∧
      (approveOp g fresh).1.pushCount = g.pushCount + 1 ∧
      approveOp (approveOp g fresh).1 fresh2 =
        ((approveOp g fresh).1, Except.ok fresh)) ∧
    (∀ g : Gateway, ∀ r fresh : PublishRecord,
      g.status = GStatus.publishing r →
      approveOp g fresh = (g, Except.ok r)) := by
  constructor
  · rintro ⟨st, pc⟩ fresh fresh2 h
    simp only at h
    subst h
    simp [approveOp]
  · rintro ⟨st, pc⟩ r fresh h
    simp only at h
    subst h
    simp [approveOp]

/-- C1 witness: a concrete double approval performs one push and returns the
same record both times. -/
theorem c1_approve_idempotent_witness :
    (approveOp ⟨GStatus.awaiting, 0⟩ ⟨1, 2, 3⟩).2 = Except.ok ⟨1, 2, 3⟩ ∧
    (approveOp ⟨GStatus.awaiting, 0⟩ ⟨1, 2, 3⟩).1.pushCount = 0 + 1 ∧
    approveOp (approveOp ⟨GStatus.awaiting, 0⟩ ⟨1, 2, 3⟩).1 ⟨9, 9, 9⟩ =
      ((approveOp ⟨GStatus.awaiting, 0⟩ ⟨1, 2, 3⟩).1, Except.ok ⟨1, 2, 3⟩) :=
  c1_approve_idempotent.1 ⟨GStatus.awaiting, 0⟩ ⟨1, 2, 3⟩ ⟨9, 9, 9⟩ rfl

/-- C2: `revertLastPublish` succeeds only when a last-publish record exists,
the remote tip equals its `remote_ref`, and the tip is system-authored; in
every other case it returns `NotRevertable` leaving the state untouched (no
push); on success it pushes one new commit whose tree is the pre-publish
tree — keeping the old history intact below it — and clears the
last-publish pointer. -/
theorem c2_revertLastPublish_guarded :
    (∀ s newCid now, s.lastPublish = none →
      revertLastPublish s newCid now =
        (s, Except.error RevertError.NotRevertable)) ∧
    (∀ s rec newCid now, s.lastPublish = some rec → s.history = [] →
      revertLastPublish s newCid now =
        (s, Except.error RevertError.NotRevertable)) ∧
    (∀ s rec tip rest newCid now, s.lastPublish = some rec →
      s.history = tip :: rest →
      ¬(tip.cid = rec.remote_ref ∧ tip.systemAuthored = true) →
      revertLastPublish s newCid now =
        (s, Except.error RevertError.NotRevertable)) ∧
    (∀ s rec tip rest newCid now, s.lastPublish = some rec →
      s.history = tip :: rest →
      tip.cid = rec.remote_ref → tip.systemAuthored = true →
      (revertLastPublish s newCid now).1.history =
        (⟨newCid, true, parentTree rest⟩ : RCommit) :: s.history ∧
      (revertLastPublish s newCid now).1.lastPublish = none ∧
      (revertLastPublish s newCid now).2 =
        Except.ok (⟨newCid, now, rec.source_checkpoint_ref⟩ : PublishRecord)) := by
  refine ⟨?_, ?_, ?_, ?_⟩
  · rintro ⟨hist, lp⟩ newCid now h
    simp only at h
    subst h
    simp [revertLastPublish]
  · rintro ⟨hist, lp⟩ rec newCid now h hh
    simp only at h hh
    subst h
    subst hh
    simp [revertLastPublish]
  · rintro ⟨hist, lp⟩ rec tip rest newCid now h hh hcond
    simp only at h hh
    subst h
    subst hh
    simp [revertLastPublish, hcond]
  · rintro ⟨hist, lp⟩ rec tip rest newCid now h hh h1 h2
    simp only at h hh
    subst h
    subst hh
    simp [revertLastPublish, h1, h2]

/-- C2 witness: a concrete revert on a matching, system-authored tip pushes
one inverse commit and clears the pointer. -/
theorem c2_revertLastPublish_guarded_witness :
    (revertLastPublish ⟨[⟨5, true, fun _ => none⟩], some ⟨5, 0, 3⟩⟩ 6 7).1.history =
      (⟨6, true, parentTree []⟩ : RCommit) ::
        (⟨[⟨5, true, fun _ => none⟩], some ⟨5, 0, 3⟩⟩ : RevertState).history ∧
    (revertLastPublish ⟨[⟨5, true, fun _ => none⟩], some ⟨5, 0, 3⟩⟩ 6 7).1.lastPublish =
      none ∧
    (revertLastPublish ⟨[⟨5, true, fun _ => none⟩], some ⟨5, 0, 3⟩⟩ 6 7).2 =
      Except.ok (⟨6, 7, 3⟩ : PublishRecord) :=
  c2_revertLastPublish_guarded.2.2.2
    ⟨[⟨5, true, fun _ => none⟩], some ⟨5, 0, 3⟩⟩ ⟨5, 0, 3⟩
    ⟨5, true, fun _ => none⟩ [] 6 7 rfl rfl rfl rfl

/-- C4: `reject_hard` undoes the local checkpoint and restores file
contents to the pre-checkpoint state for exactly the workflow's changed
paths, while every path outside that set keeps the contents it had before
the call — no full workspace wipe. -/
theorem c4_reject_hard_frame :
    ∀ (changed : List JStr) (c : RollbackCtx) (ck pre : LocalCommit)
      (rest : List LocalCommit),
      c.repo.history = ck :: pre :: rest →
      (∀ p, p ∉ changed →
        (rejectHard changed c).repo.workspace p = c.repo.workspace p) ∧
      (∀ p, p ∈ changed →
        (rejectHard changed c).repo.workspace p = pre.tree p) ∧
      (rejectHard changed c).repo.history = pre :: rest ∧
      (rejectHard changed c).wstate = WState.rolled_back_hard := by
  intro changed c ck pre rest h
  refine ⟨?_, ?_, ?_, ?_⟩
  · intro p hp
    simp [rejectHard, restoreOnly, headTreeL, h, hp]
  · intro p hp
    simp [rejectHard, restoreOnly, headTreeL, h, hp]
  · simp [rejectHard, h]
  · simp [rejectHard]

/-- C4 witness: a concrete hard rollback restores the changed path from the
pre-checkpoint commit and leaves an unrelated path alone. -/
theorem c4_reject_hard_frame_witness :
    (rejectHard ["a".data]
        ⟨⟨[⟨fun _ => some ("x".data), "m1".data⟩,
           ⟨fun _ => some ("o".data), "m0".data⟩],
          fun _ => some ("x".data), []⟩, WState.awaiting_decision⟩
      ).repo.workspace ("b".data) = some ("x".data) ∧
    (rejectHard ["a".data]
        ⟨⟨[⟨fun _ => some ("x".data), "m1".data⟩,
           ⟨fun _ => some ("o".data), "m0".data⟩],
          fun _ => some ("x".data), []⟩, WState.awaiting_decision⟩
      ).repo.workspace ("a".data) = some ("o".data) :=
  ⟨(c4_reject_hard_frame ["a".data] _ _ _ _ rfl).1 ("b".data) (by decide),
   (c4_reject_hard_frame ["a".data] _ _ _ _ rfl).2.1 ("a".data) (by decide)⟩

/-- C5: a successful publish performs, in order, exactly one workspace
reset, then the re-application of exactly the workflow's changed paths from
the checkpoint's recorded files, then staging, then a commit whose message
is derived from the checkpoint annotation, then the push. -/
theorem c5_publish_order :
    ∀ (e : PubEnv) (r : PublishRecord), (publish e).2 = Except.ok r →
      (publish e).1 = PubAction.resetWs ::
        e.checkpointFiles.map (fun pc => PubAction.applyPath pc.1) ++
        [PubAction.stageAll, PubAction.commitMsg (deriveMsg e.annot),
         PubAction.pushRemote] := by
  intro e r h
  cases h1 : e.resetOk <;> cases h2 : e.diffNonEmpty <;> cases h3 : e.pushOk <;>
    simp_all [publish]

/-- C5 witness: a concrete successful publish produces exactly the ordered
trace. -/
theorem c5_publish_order_witness :
    (publish ⟨true, [("a.txt".data, "x".data)], "add a".data,
        true, true, 1, 2, 3⟩).1 =
      PubAction.resetWs ::
        ([("a.txt".data, "x".data)] :
            List (JStr × JStr)).map (fun pc => PubAction.applyPath pc.1) ++
        [PubAction.stageAll,
         PubAction.commitMsg (deriveMsg ("add a".data)),
         PubAction.pushRemote] :=
  c5_publish_order
    ⟨true, [("a.txt".data, "x".data)], "add a".data, true, true, 1, 2, 3⟩
    ⟨1, 2, 3⟩ rfl

/-- C6: `reject_soft` moves the local commit pointer back exactly one step,
leaves every workspace file untouched (so the modified files stay present)
with nothing staged, and the workflow ends in `rolled_back_soft`. -/
theorem c6_reject_soft :
    ∀ (c : RollbackCtx) (ck : LocalCommit) (rest : List LocalCommit),
      c.repo.history = ck :: rest →
      (rejectSoft c).repo.history = rest ∧
      (∀ p, (rejectSoft c).repo.workspace p = c.repo.workspace p) ∧
      (rejectSoft c).repo.staged = [] ∧
      (rejectSoft c).wstate = WState.rolled_back_soft := by
  intro c ck rest h
  refine ⟨by simp [rejectSoft, h], fun p => rfl, rfl, rfl⟩

/-- C6 witness: a concrete soft rollback drops the checkpoint commit and
keeps the modified file in the workspace. -/
theorem c6_reject_soft_witness :
    (rejectSoft ⟨⟨[⟨fun _ => some ("y".data), "m1".data⟩],
        fun _ => some ("y".data), ["b.txt".data]⟩,
        WState.awaiting_decision⟩).repo.history = [] ∧
    (rejectSoft ⟨⟨[⟨fun _ => some ("y".data), "m1".data⟩],
        fun _ => some ("y".data), ["b.txt".data]⟩,
        WState.awaiting_decision⟩).repo.workspace ("b.txt".data) =
      some ("y".data) ∧
    (rejectSoft ⟨⟨[⟨fun _ => some ("y".data), "m1".data⟩],
        fun _ => some ("y".data), ["b.txt".data]⟩,
        WState.awaiting_decision⟩).wstate = WState.rolled_back_soft := by
  have h := c6_reject_soft
    ⟨⟨[⟨fun _ => some ("y".data), "m1".data⟩],
      fun _ => some ("y".data), ["b.txt".data]⟩,
      WState.awaiting_decision⟩ ⟨fun _ => some ("y".data), "m1".data⟩ [] rfl
  exact ⟨h.1, h.2.1 ("b.txt".data), h.2.2.2⟩

/-- C7: workspace removal attempts the strategies in escalation order with
at most three attempts and a fixed backoff between consecutive attempts,
and a clone failure is surfaced immediately as a terminal error, with the
clone never attempted more than once. -/
theorem c7_reset_escalation :
    ∀ (ok : Strategy → Bool) (cloneOk : Bool),
      (attemptsOf (resetWorkspace ok cloneOk).1).length ≤ 3 ∧
      (attemptsOf (resetWorkspace ok cloneOk).1).isPrefixOf escalation = true ∧
      backoffCount (resetWorkspace ok cloneOk).1 + 1 =
        (attemptsOf (resetWorkspace ok cloneOk).1).length ∧
      cloneCount (resetWorkspace ok cloneOk).1 ≤ 1 ∧
      ((removeDir ok).2 = true → cloneOk = false →
        (resetWorkspace ok cloneOk).2 = Except.error WorkspaceError.CloneFailed ∧
        cloneCount (resetWorkspace ok cloneOk).1 = 1) := by
  intro ok cloneOk
  cases h1 : ok Strategy.plainDelete <;>
    cases h2 : ok Strategy.permissionFix <;>
    cases h3 : ok Strategy.forcefulExternal <;>
    cases cloneOk <;>
    simp_all [resetWorkspace, removeDir, attemptsOf, backoffCount,
      cloneCount, escalation]

/-- C7 witness: with the first two strategies failing, the third succeeding
and the clone failing, the trace attempts all three strategies in order
with two backoffs and the single clone failure is terminal. -/
theorem c7_reset_escalation_witness :
    (attemptsOf (resetWorkspace
        (fun s => decide (s = Strategy.forcefulExternal)) false).1).length ≤ 3 ∧
    (resetWorkspace (fun s => decide (s = Strategy.forcefulExternal))
        false).2 = Except.error WorkspaceError.CloneFailed := by
  have h := c7_reset_escalation
    (fun s => decide (s = Strategy.forcefulExternal)) false
  exact ⟨h.1, (h.2.2.2.2 (by decide) rfl).1⟩

/-- C8: staging that detects zero net changes makes `checkpoint` return the
error `NothingToCheckpoint`, never a success result. -/
theorem c8_nothing_to_checkpoint :
    ∀ (ws headSnap : List (JStr × JStr)) (annot : JStr) (newRef now : Nat),
      diffPaths ws headSnap = [] →
      checkpointOp ws headSnap annot newRef now =
        Except.error CheckpointError.NothingToCheckpoint ∧
      ∀ c, checkpointOp ws headSnap annot newRef now ≠ Except.ok c := by
  intro ws headSnap annot newRef now h
  refine ⟨by simp [checkpointOp, h], ?_⟩
  intro c
  simp [checkpointOp, h]

/-- C8 witness: a workspace identical to the clone point yields zero net
changes and the checkpoint fails with `NothingToCheckpoint`. -/
theorem c8_nothing_to_checkpoint_witness :
    checkpointOp [("a".data, "x".data)] [("a".data, "x".data)]
        ("annot".data) 1 2 =
      Except.error CheckpointError.NothingToCheckpoint :=
  (c8_nothing_to_checkpoint [("a".data, "x".data)] [("a".data, "x".data)]
    ("annot".data) 1 2 (by decide)).1

/-- C9: in every reachable state of the decision-call system at most one
HTTP decision request is in flight for a task id; while the
`commitActions` flag is set no step issues another request (further
invocations return immediately); and whenever an in-flight invocation
finishes — with either outcome — the flag is cleared. -/
theorem c9_inflight_guard :
    (∀ (n : Nat) (s : UiState), ReachUi n s → s.inFlight ≤ 1) ∧
    (∀ s t : UiState, UStep s t → s.flag = true → t.requests = s.requests) ∧
    (∀ s t : UiState, UStep s t → t.inFlight < s.inFlight →
      t.flag = false) := by
  refine ⟨?_, ?_, ?_⟩
  · intro n s h
    have hinv := uiFlagInvariant h
    rw [hinv]
    split <;> omega
  · intro s t hst hf
    cases hst with
    | earlyReturn h hf2 => rfl
    | enter h hf2 => rw [hf] at hf2; cases hf2
    | complete o h => rfl
  · intro s t hst hlt
    cases hst with
    | earlyReturn h hf => exact absurd hlt (lt_irrefl s.inFlight)
    | enter h hf =>
      exact absurd hlt (by omega : ¬(s.inFlight + 1 < s.inFlight))
    | complete o h => rfl

/-- C9 witness: after one invocation passes the guard, the reachable state
has one request in flight; an invocation arriving while the flag is set
returns without issuing a request. -/
theorem c9_inflight_guard_witness :
    (⟨true, 1, 1, 0, 1⟩ : UiState).inFlight ≤ 1 ∧
    (⟨true, 0, 1, 1, 1⟩ : UiState).requests =
      (⟨true, 1, 1, 0, 1⟩ : UiState).requests :=
  ⟨c9_inflight_guard.1 2 ⟨true, 1, 1, 0, 1⟩
    (ReachUi.tail ReachUi.refl (UStep.enter (initUi 2) (by decide) rfl)),
   c9_inflight_guard.2.1 ⟨true, 1, 1, 0, 1⟩ ⟨true, 0, 1, 1, 1⟩
    (UStep.earlyReturn ⟨true, 1, 1, 0, 1⟩ (by decide) rfl) rfl⟩

end VocalCommit
